import Mathlib

/-!
# bishtawi/auth0, package `management`: client grants and connections

A shallow embedding of `management/client_grant.go` and `management/connection.go`.

* A Go pointer `*T` is an `Option T`: `none` is the nil pointer.
* A Go slice `[]T` that can be nil is an `Option (List T)`: `none` is the nil slice,
  `some []` the empty slice that is not nil. The listings decoded by the transport are
  plain lists (a nil listing and an empty one are not told apart by the code, which only
  takes `len` and ranges over them); their entries are pointers, so `Option`s.
* A value of type `interface{}` is a JSON document value (`Json`); a
  `map[string]interface{}` is the list of its entries in the order of the keys.
* The Go `error` interface is `Option Error`: `none` is the nil error.
* Dereferencing a nil pointer panics: `Outcome.panicked`.
* Every call on the transport is recorded, in order, in the `calls` of a `Traced` result.
-/

set_option autoImplicit false

namespace auth0

/-- Modelled from the spec: `auth0.StringValue` of the root package, which is not among the
source files; it reads a `*string`, a nil pointer being read as the empty string. -/
def StringValue (s : Option String) : String :=
  match s with
  | some v => v
  | none => ""

end auth0

namespace management

/-! ## Data model -/

/-- A JSON document value, and the Go value held in an `interface{}` that `encoding/json`
writes as that document (nil, bool, number, string, `[]interface{}`,
`map[string]interface{}`). Numbers are taken at integer values. As a document, an object
lists its members as they are written, repeated keys included; as a Go map, it lists its
entries in the order of the keys, which is the order `json.Marshal` writes them in. The
values that `encoding/json` reads into an `interface{}` are those of `Json.isValue`. -/
inductive Json where
  | null
  | bool (b : Bool)
  | num (n : Int)
  | str (s : String)
  | arr (elems : List Json)
  | obj (members : List (String × Json))

/-- The struct `ClientGrant` (client_grant.go, lines 9-21). -/
structure ClientGrant where
  ID : Option String := none
  ClientID : Option String := none
  Audience : Option String := none
  Scope : Option (List Json) := none

/-- The struct `ConnectionOptionsTotp` (connection.go, lines 132-135). -/
structure ConnectionOptionsTotp where
  TimeStep : Option Int := none
  Length : Option Int := none

/-- The struct `ConnectionOptions` (connection.go, lines 58-126). -/
structure ConnectionOptions where
  Validation : Option (List (String × Json)) := none
  PasswordPolicy : Option String := none
  PasswordHistory : Option (List (String × Json)) := none
  PasswordNoPersonalInfo : Option (List (String × Json)) := none
  PasswordDictionary : Option (List (String × Json)) := none
  PasswordComplexityOptions : Option (List (String × Json)) := none
  APIEnableUsers : Option Bool := none
  BasicProfile : Option Bool := none
  ExtAdmin : Option Bool := none
  ExtIsSuspended : Option Bool := none
  ExtAgreedTerms : Option Bool := none
  ExtGroups : Option Bool := none
  ExtNestedGroups : Option Bool := none
  ExtAssignedPlans : Option Bool := none
  ExtProfile : Option Bool := none
  EnabledDatabaseCustomization : Option Bool := none
  BruteForceProtection : Option Bool := none
  ImportMode : Option Bool := none
  DisableSignup : Option Bool := none
  RequiresUsername : Option Bool := none
  UpstreamParams : Option Json := none
  ClientID : Option String := none
  ClientSecret : Option String := none
  TenantDomain : Option String := none
  DomainAliases : Option (List Json) := none
  UseWsfed : Option Bool := none
  WaadProtocol : Option String := none
  WaadCommonEndpoint : Option Bool := none
  AppID : Option String := none
  AppDomain : Option String := none
  MaxGroupsToRetrieve : Option String := none
  CustomScripts : Option (List (String × Json)) := none
  Configuration : Option (List (String × Json)) := none
  Totp : Option ConnectionOptionsTotp := none
  Name : Option String := none
  TwilioSid : Option String := none
  TwilioToken : Option String := none
  From : Option String := none
  Syntax : Option String := none
  Template : Option String := none
  MessagingServiceSid : Option String := none
  AdfsServer : Option String := none

/-- The struct `Connection` (connection.go, lines 8-50). -/
structure Connection where
  ID : Option String := none
  Name : Option String := none
  Strategy : Option String := none
  IsDomainConnection : Option Bool := none
  Options : Option ConnectionOptions := none
  EnabledClients : Option (List Json) := none
  Realms : Option (List Json) := none
  Metadata : Option Json := none

/-! ## Errors -/

/-- Modelled from the spec: the type `managementError`, declared outside the source files;
a typed error carrying a status code, a short error label and a message. The field names
are those of the literal in `ClientGrantManager.Read`. -/
structure managementError where
  StatusCode : Int
  Err : String
  Message : String
deriving DecidableEq

/-- A value of the Go `error` interface that is not nil. -/
inductive Error where
  /-- A `*managementError`. -/
  | management (e : managementError)
  /-- The value of `errors.New(text)`. -/
  | errorString (text : String)
  /-- Any other error the transport comes back with (network, decoding). -/
  | transport (text : String)
deriving DecidableEq

/-- The function `errors.New` of the standard library. -/
def errors.New (text : String) : Error := Error.errorString text

/-- What a run of a function ends in: it returns, or it panics on a nil pointer. -/
inductive Outcome (α : Type) where
  | returned (a : α)
  | panicked

/-! ## The transport -/

/-- Modelled from the spec: the type `reqOption` and its constructor `Parameter`, declared
outside the source files; an option is a key/value pair contributing to a request's query
string. -/
structure reqOption where
  key : String
  value : String
deriving DecidableEq

/-- Modelled from the spec: `Parameter(key, value)`, the option made of one pair. -/
def Parameter (key value : String) : reqOption := ⟨key, value⟩

/-- The verb of a request. -/
inductive Verb where
  | GET | POST | PATCH | DELETE
deriving DecidableEq

/-- The record handed to `post` or `patch` as the body: a pointer to a grant or to a
connection. -/
inductive Payload where
  | grant (g : Option ClientGrant)
  | connection (c : Option Connection)

/-- One call on the transport. -/
structure Request where
  verb : Verb
  uri : String
  body : Option Payload

/-- A value together with the calls made on the transport to get it, in order. -/
structure Traced (α : Type) where
  value : α
  calls : List Request

/-- Modelled from the spec: the type `Management`, declared outside the source files; the
shared transport every manager refers to. Its URI builders `uri` and `q` and the answers of
the remote side are left open: `doPost`, `doPatch` and `doDelete` give the error returned for
a URI (and body); a `doGet...` gives what `get` leaves in the variable it decodes into,
together with the error it returns. -/
structure Management where
  uri : List String → String
  q : List reqOption → String
  doPost : String → Payload → Option Error
  doPatch : String → Payload → Option Error
  doDelete : String → Option Error
  doGetClientGrants : String → List (Option ClientGrant) × Option Error
  doGetConnections : String → List (Option Connection) × Option Error
  doGetConnection : String → Connection × Option Error

/-- The method `m.post(uri, v)`. -/
def Management.post (m : Management) (u : String) (v : Payload) : Traced (Option Error) :=
  ⟨m.doPost u v, [⟨Verb.POST, u, some v⟩]⟩

/-- The method `m.patch(uri, v)`. -/
def Management.patch (m : Management) (u : String) (v : Payload) : Traced (Option Error) :=
  ⟨m.doPatch u v, [⟨Verb.PATCH, u, some v⟩]⟩

/-- The method `m.delete(uri)`. -/
def Management.delete (m : Management) (u : String) : Traced (Option Error) :=
  ⟨m.doDelete u, [⟨Verb.DELETE, u, none⟩]⟩

/-- The method `m.get(uri, &gs)` with `gs` a `[]*ClientGrant`. -/
def Management.getClientGrants (m : Management) (u : String) :
    Traced (List (Option ClientGrant) × Option Error) :=
  ⟨m.doGetClientGrants u, [⟨Verb.GET, u, none⟩]⟩

/-- The method `m.get(uri, &c)` with `c` a `[]*Connection`. -/
def Management.getConnections (m : Management) (u : String) :
    Traced (List (Option Connection) × Option Error) :=
  ⟨m.doGetConnections u, [⟨Verb.GET, u, none⟩]⟩

/-- The method `m.get(uri, c)` with `c` a new `*Connection`. -/
def Management.getConnection (m : Management) (u : String) :
    Traced (Connection × Option Error) :=
  ⟨m.doGetConnection u, [⟨Verb.GET, u, none⟩]⟩

/-! ## `ClientGrantManager` (client_grant.go) -/

/-- The struct `ClientGrantManager`. -/
structure ClientGrantManager where
  m : Management

/-- The constructor `NewClientGrantManager`. -/
def NewClientGrantManager (m : Management) : ClientGrantManager := ⟨m⟩

/-- The method `Create` (line 36). -/
def ClientGrantManager.Create (cg : ClientGrantManager) (g : Option ClientGrant) :
    Traced (Option Error) :=
  cg.m.post (cg.m.uri ["client-grants"]) (Payload.grant g)

/-- The error built at lines 52-56. -/
def clientGrantNotFound : Error :=
  Error.management { StatusCode := 404, Err := "Not Found", Message := "Client grant not found" }

/-- The loop of `Read` (lines 46-56) over the listing, and the return after it. -/
def ClientGrantManager.scan (id : String) :
    List (Option ClientGrant) → Outcome (Option ClientGrant × Option Error)
  | [] => Outcome.returned (none, some clientGrantNotFound)
  | none :: _ => Outcome.panicked
  | some g :: rest =>
    let gid := auth0.StringValue g.ID
    if gid = id then Outcome.returned (some g, none)
    else ClientGrantManager.scan id rest

/-- The method `Read` (lines 40-57). -/
def ClientGrantManager.Read (cg : ClientGrantManager) (id : String) :
    Traced (Outcome (Option ClientGrant × Option Error)) :=
  let r := cg.m.getClientGrants (cg.m.uri ["client-grants"])
  let gs := r.value.1
  match r.value.2 with
  | some err => ⟨Outcome.returned (none, some err), r.calls⟩
  | none => ⟨ClientGrantManager.scan id gs, r.calls⟩

/-- The method `Update` (line 59). -/
def ClientGrantManager.Update (cg : ClientGrantManager) (id : String) (g : Option ClientGrant) :
    Traced (Option Error) :=
  cg.m.patch (cg.m.uri ["client-grants", id]) (Payload.grant g)

/-- The method `Delete` (line 63). -/
def ClientGrantManager.Delete (cg : ClientGrantManager) (id : String) : Traced (Option Error) :=
  cg.m.delete (cg.m.uri ["client-grants", id])

/-- The method `List` (line 67). -/
def ClientGrantManager.List (cg : ClientGrantManager) (opts : List reqOption) :
    Traced (List (Option ClientGrant) × Option Error) :=
  cg.m.getClientGrants (cg.m.uri ["client-grants"] ++ cg.m.q opts)

/-! ## `ConnectionManager` (connection.go) -/

/-- The struct `ConnectionManager`. -/
structure ConnectionManager where
  m : Management

/-- The constructor `NewConnectionManager`. -/
def NewConnectionManager (m : Management) : ConnectionManager := ⟨m⟩

/-- Modelled from the spec: the field `Connection` of `Management`, declared outside the
source files; each manager holds a reference to the shared transport, so the connection
manager of `m` is the one made over `m`. -/
def Management.Connection (m : Management) : ConnectionManager := NewConnectionManager m

/-- The method `Create` (line 141). -/
def ConnectionManager.Create (cm : ConnectionManager) (c : Option Connection) :
    Traced (Option Error) :=
  cm.m.post (cm.m.uri ["connections"]) (Payload.connection c)

/-- The method `Read` (lines 145-149): the pointer returned is the one made by `new`. -/
def ConnectionManager.Read (cm : ConnectionManager) (id : String) (opts : List reqOption) :
    Traced (Option Connection × Option Error) :=
  let r := cm.m.getConnection (cm.m.uri ["connections", id] ++ cm.m.q opts)
  ⟨(some r.value.1, r.value.2), r.calls⟩

/-- The method `List` (lines 151-155). -/
def ConnectionManager.List (cm : ConnectionManager) (opts : List reqOption) :
    Traced (List (Option Connection) × Option Error) :=
  cm.m.getConnections (cm.m.uri ["connections"] ++ cm.m.q opts)

/-- The method `Update` (line 157). -/
def ConnectionManager.Update (cm : ConnectionManager) (id : String) (c : Option Connection) :
    Traced (Option Error) :=
  cm.m.patch (cm.m.uri ["connections", id]) (Payload.connection c)

/-- The method `Delete` (line 161). -/
def ConnectionManager.Delete (cm : ConnectionManager) (id : String) : Traced (Option Error) :=
  cm.m.delete (cm.m.uri ["connections", id])

/-- The method `GetConnectionID` (lines 165-173). -/
def ConnectionManager.GetConnectionID (cm : ConnectionManager) (connectionName : String) :
    Traced (Outcome (Option String × Option Error)) :=
  let r := cm.m.Connection.List [Parameter "name" connectionName, Parameter "fields" "id"]
  let connections := r.value.1
  let err := r.value.2
  if connections.length = 1 then
    match connections.head? with
    | some (some c) => ⟨Outcome.returned (c.ID, none), r.calls⟩
    | _ => ⟨Outcome.panicked, r.calls⟩
  else
    match err with
    | none =>
      ⟨Outcome.returned
          (none, some (errors.New (connectionName ++ " connection does not exist."))),
        r.calls⟩
    | some e => ⟨Outcome.returned (none, some e), r.calls⟩

/-! ## Serialization (`encoding/json` over the struct tags) -/

/-- The value of a struct field, by the kind of its Go type: a pointer (nil, or the document
of what it points to), a slice `[]interface{}`, or a map `map[string]interface{}`. -/
inductive FieldValue where
  | pointer (v : Option Json)
  | slice (v : Option (List Json))
  | map (v : Option (List (String × Json)))

/-- A struct field as the encoder sees it: the key of its `json` tag, whether the tag has
`omitempty`, and its value. -/
structure Field where
  name : String
  omitEmpty : Bool
  value : FieldValue

/-- Whether the field is absent: a nil pointer, a nil slice or a nil map. -/
def FieldValue.isNil : FieldValue → Bool
  | FieldValue.pointer v => v.isNone
  | FieldValue.slice v => v.isNone
  | FieldValue.map v => v.isNone

/-- The test `isEmptyValue` of `encoding/json`: a pointer is empty when nil, a slice or a
map when its length is 0. -/
def isEmptyValue : FieldValue → Bool
  | FieldValue.pointer v => v.isNone
  | FieldValue.slice v => (v.getD []).length == 0
  | FieldValue.map v => (v.getD []).length == 0

/-- The document written for a value: `null` for nil, else the value pointed to, the array
or the object. A map is written in the order of its keys, the order of its listing; a
number is written with the digits of its integer, as Go writes a `float64` up to 2^53. -/
def FieldValue.encode : FieldValue → Json
  | FieldValue.pointer none => Json.null
  | FieldValue.pointer (some j) => j
  | FieldValue.slice none => Json.null
  | FieldValue.slice (some xs) => Json.arr xs
  | FieldValue.map none => Json.null
  | FieldValue.map (some kvs) => Json.obj kvs

/-- The document written for a field, if any: nothing when the tag has `omitempty` and the
value is empty. -/
def Field.doc (f : Field) : Option Json :=
  if f.omitEmpty && isEmptyValue f.value then none else some f.value.encode

/-- The member written for a field, if any. -/
def Field.member (f : Field) : Option (String × Json) :=
  f.doc.map fun j => (f.name, j)

/-- The members written for the fields of a struct, in the order of the fields. -/
def encodeFields (fs : List Field) : List (String × Json) :=
  fs.filterMap Field.member

/-- The members of an object; no members for any other document. -/
def Json.members : Json → List (String × Json)
  | Json.obj ms => ms
  | _ => []

/-- The fields of a `ClientGrant`, from its struct tags. -/
def ClientGrant.fields (g : ClientGrant) : List Field :=
  [ Field.mk "id" true (FieldValue.pointer (g.ID.map Json.str)),
    Field.mk "client_id" true (FieldValue.pointer (g.ClientID.map Json.str)),
    Field.mk "audience" true (FieldValue.pointer (g.Audience.map Json.str)),
    Field.mk "scope" false (FieldValue.slice g.Scope) ]

/-- The document `json.Marshal` writes for a `ClientGrant`. -/
def ClientGrant.marshal (g : ClientGrant) : Json :=
  Json.obj (encodeFields g.fields)

/-- The fields of a `ConnectionOptionsTotp`, from its struct tags. -/
def ConnectionOptionsTotp.fields (t : ConnectionOptionsTotp) : List Field :=
  [ Field.mk "time_step" true (FieldValue.pointer (t.TimeStep.map Json.num)),
    Field.mk "length" true (FieldValue.pointer (t.Length.map Json.num)) ]

/-- The document `json.Marshal` writes for a `ConnectionOptionsTotp`. -/
def ConnectionOptionsTotp.marshal (t : ConnectionOptionsTotp) : Json :=
  Json.obj (encodeFields t.fields)

/-- The fields of a `ConnectionOptions`, from its struct tags: the password policy fields
(lines 60-76). -/
def ConnectionOptions.fieldsPassword (o : ConnectionOptions) : List Field :=
  [ Field.mk "validation" true (FieldValue.map o.Validation),
    Field.mk "passwordPolicy" true (FieldValue.pointer (o.PasswordPolicy.map Json.str)),
    Field.mk "password_history" true (FieldValue.map o.PasswordHistory),
    Field.mk "password_no_personal_info" true (FieldValue.map o.PasswordNoPersonalInfo),
    Field.mk "password_dictionary" true (FieldValue.map o.PasswordDictionary),
    Field.mk "password_complexity_options" true (FieldValue.map o.PasswordComplexityOptions) ]

/-- The fields of a `ConnectionOptions`, from its struct tags: the flags (lines 78-91). -/
def ConnectionOptions.fieldsFlags (o : ConnectionOptions) : List Field :=
  [ Field.mk "api_enable_users" true (FieldValue.pointer (o.APIEnableUsers.map Json.bool)),
    Field.mk "basic_profile" true (FieldValue.pointer (o.BasicProfile.map Json.bool)),
    Field.mk "ext_admin" true (FieldValue.pointer (o.ExtAdmin.map Json.bool)),
    Field.mk "ext_is_suspended" true (FieldValue.pointer (o.ExtIsSuspended.map Json.bool)),
    Field.mk "ext_agreed_terms" true (FieldValue.pointer (o.ExtAgreedTerms.map Json.bool)),
    Field.mk "ext_groups" true (FieldValue.pointer (o.ExtGroups.map Json.bool)),
    Field.mk "ext_nested_groups" true (FieldValue.pointer (o.ExtNestedGroups.map Json.bool)),
    Field.mk "ext_assigned_plans" true (FieldValue.pointer (o.ExtAssignedPlans.map Json.bool)),
    Field.mk "ext_profile" true (FieldValue.pointer (o.ExtProfile.map Json.bool)),
    Field.mk "enabledDatabaseCustomization" true
      (FieldValue.pointer (o.EnabledDatabaseCustomization.map Json.bool)),
    Field.mk "brute_force_protection" true
      (FieldValue.pointer (o.BruteForceProtection.map Json.bool)),
    Field.mk "import_mode" true (FieldValue.pointer (o.ImportMode.map Json.bool)),
    Field.mk "disable_signup" true (FieldValue.pointer (o.DisableSignup.map Json.bool)),
    Field.mk "requires_username" true (FieldValue.pointer (o.RequiresUsername.map Json.bool)) ]

/-- The fields of a `ConnectionOptions`, from its struct tags: the provider fields
(lines 94-105). -/
def ConnectionOptions.fieldsProvider (o : ConnectionOptions) : List Field :=
  [ Field.mk "upstream_params" true (FieldValue.pointer o.UpstreamParams),
    Field.mk "client_id" true (FieldValue.pointer (o.ClientID.map Json.str)),
    Field.mk "client_secret" true (FieldValue.pointer (o.ClientSecret.map Json.str)),
    Field.mk "tenant_domain" true (FieldValue.pointer (o.TenantDomain.map Json.str)),
    Field.mk "domain_aliases" true (FieldValue.slice o.DomainAliases),
    Field.mk "use_wsfed" true (FieldValue.pointer (o.UseWsfed.map Json.bool)),
    Field.mk "waad_protocol" true (FieldValue.pointer (o.WaadProtocol.map Json.str)),
    Field.mk "waad_common_endpoint" true (FieldValue.pointer (o.WaadCommonEndpoint.map Json.bool)),
    Field.mk "app_id" true (FieldValue.pointer (o.AppID.map Json.str)),
    Field.mk "app_domain" true (FieldValue.pointer (o.AppDomain.map Json.str)),
    Field.mk "max_groups_to_retrieve" true
      (FieldValue.pointer (o.MaxGroupsToRetrieve.map Json.str)) ]

/-- The fields of a `ConnectionOptions`, from its struct tags: the scripts, Twilio and ADFS
fields (lines 109-125). -/
def ConnectionOptions.fieldsScripts (o : ConnectionOptions) : List Field :=
  [ Field.mk "customScripts" true (FieldValue.map o.CustomScripts),
    Field.mk "configuration" true (FieldValue.map o.Configuration),
    Field.mk "totp" true (FieldValue.pointer (o.Totp.map ConnectionOptionsTotp.marshal)),
    Field.mk "name" true (FieldValue.pointer (o.Name.map Json.str)),
    Field.mk "twilio_sid" true (FieldValue.pointer (o.TwilioSid.map Json.str)),
    Field.mk "twilio_token" true (FieldValue.pointer (o.TwilioToken.map Json.str)),
    Field.mk "from" true (FieldValue.pointer (o.From.map Json.str)),
    Field.mk "syntax" true (FieldValue.pointer (o.Syntax.map Json.str)),
    Field.mk "template" true (FieldValue.pointer (o.Template.map Json.str)),
    Field.mk "messaging_service_sid" true (FieldValue.pointer (o.MessagingServiceSid.map Json.str)),
    Field.mk "adfs_server" true (FieldValue.pointer (o.AdfsServer.map Json.str)) ]

/-- The fields of a `ConnectionOptions`, from its struct tags, in the order of the struct. -/
def ConnectionOptions.fields (o : ConnectionOptions) : List Field :=
  o.fieldsPassword ++ o.fieldsFlags ++ o.fieldsProvider ++ o.fieldsScripts

/-- The document `json.Marshal` writes for a `ConnectionOptions`. -/
def ConnectionOptions.marshal (o : ConnectionOptions) : Json :=
  Json.obj (encodeFields o.fields)

/-- The fields of a `Connection`, from its struct tags. -/
def Connection.fields (c : Connection) : List Field :=
  [ Field.mk "id" true (FieldValue.pointer (c.ID.map Json.str)),
    Field.mk "name" true (FieldValue.pointer (c.Name.map Json.str)),
    Field.mk "strategy" true (FieldValue.pointer (c.Strategy.map Json.str)),
    Field.mk "is_domain_connection" true (FieldValue.pointer (c.IsDomainConnection.map Json.bool)),
    Field.mk "options" true (FieldValue.pointer (c.Options.map ConnectionOptions.marshal)),
    Field.mk "enabled_clients" true (FieldValue.slice c.EnabledClients),
    Field.mk "realms" true (FieldValue.slice c.Realms),
    Field.mk "metadata" true (FieldValue.pointer c.Metadata) ]

/-- The document `json.Marshal` writes for a `Connection`. -/
def Connection.marshal (c : Connection) : Json :=
  Json.obj (encodeFields c.fields)

/-! ## Deserialization

`json.Unmarshal` into a struct. The result is `none` when `Unmarshal` returns an error.
The members of the object are stored one after another into the field whose key they
carry; the key of a member is matched with the keys of the struct without regard to case.
A new struct has every field nil. -/

/-- The number of binary digits of `m`, counted with `fuel` steps. -/
def bitLengthAux : Nat → Nat → Nat
  | 0, _ => 0
  | fuel + 1, m => if m = 0 then 0 else bitLengthAux fuel (m / 2) + 1

/-- The number of binary digits of a natural number. -/
def bitLength (n : Nat) : Nat := bitLengthAux n n

/-- The `float64` read from an integer literal (`strconv.ParseFloat`): the integer itself up
to 2^53 in magnitude; beyond, the nearest number with 53 binary digits followed by zeros,
a tie going to the even one; an error at 2^1024 and beyond. -/
def float64 (n : Int) : Option Int :=
  if n.natAbs ≤ 2 ^ 53 then some n
  else
    let e := bitLength n.natAbs - 53
    let q := n.natAbs / 2 ^ e
    let r := n.natAbs % 2 ^ e
    let up := decide (2 ^ (e - 1) < r) || (decide (r = 2 ^ (e - 1)) && decide (q % 2 = 1))
    let m := (if up then q + 1 else q) * 2 ^ e
    if bitLength m ≤ 1024 then some (if n < 0 then -(m : Int) else (m : Int)) else none

/-- Storing a value under a key in a Go map, held as its listing in the order of the keys:
the value replaces the one the key had, if any. -/
def mapStore (k : String) (v : Json) : List (String × Json) → List (String × Json)
  | [] => [(k, v)]
  | (k1, v1) :: rest =>
    if k < k1 then (k, v) :: (k1, v1) :: rest
    else if k = k1 then (k, v) :: rest
    else (k1, v1) :: mapStore k v rest

mutual
/-- The value read from a document into an `interface{}`: a number as a `float64`, an array
as a `[]interface{}`, an object as a `map[string]interface{}`. -/
def asInterface : Json → Option Json
  | Json.null => some Json.null
  | Json.bool b => some (Json.bool b)
  | Json.num n => (float64 n).map Json.num
  | Json.str s => some (Json.str s)
  | Json.arr xs => (asInterfaces xs).map Json.arr
  | Json.obj ms => (asInterfaceMap ms []).map Json.obj
/-- The values read from the elements of an array. -/
def asInterfaces : List Json → Option (List Json)
  | [] => some []
  | x :: xs => List.cons <$> asInterface x <*> asInterfaces xs
/-- The map `m` after the members of an object are stored in it, one after another. -/
def asInterfaceMap : List (String × Json) → List (String × Json) →
    Option (List (String × Json))
  | [], m => some m
  | (k, v) :: ms, m => (asInterface v).bind fun w => asInterfaceMap ms (mapStore k w m)
end

/-- Whether an integer fits the Go type `int`, taken at 64 bits. -/
def fitsInt (n : Int) : Bool := decide (-(2 ^ 63) ≤ n) && decide (n < 2 ^ 63)

/-- An example transport: URIs are the parts joined under `/api/v2`, the query string lists
the options, every write succeeds, and every listing request is answered with the given
grants or connections and the given error. -/
def exampleManagement (grants : List (Option ClientGrant)) (conns : List (Option Connection))
    (err : Option Error) : Management where
  uri := fun parts => "/api/v2/" ++ "/".intercalate parts
  q := fun opts => String.join (opts.map fun o => "&" ++ o.key ++ "=" ++ o.value)
  doPost := fun _ _ => none
  doPatch := fun _ _ => none
  doDelete := fun _ => none
  doGetClientGrants := fun _ => (grants, err)
  doGetConnections := fun _ => (conns, err)
  doGetConnection := fun _ => (conns.head?.join.getD {}, err)

/-- Three grants, two of them with the ID `abc123`. -/
def exampleGrants : List ClientGrant :=
  [ { ID := some "xyz", ClientID := some "client-0" },
    { ID := some "abc123", ClientID := some "client-1" },
    { ID := some "abc123", ClientID := some "client-2" } ]

/-- A listing with a nil entry after two grants with the ID `abc123`. -/
def exampleNilAfterMatch : List (Option ClientGrant) :=
  [ some { ID := some "xyz", ClientID := some "client-0" },
    some { ID := some "abc123", ClientID := some "client-1" },
    some { ID := some "abc123", ClientID := some "client-2" },
    none ]

/-- A grant with no ID followed by a grant whose ID is the empty string. -/
def exampleBlankGrants : List ClientGrant :=
  [ { ClientID := some "client-1" },
    { ID := some "", ClientID := some "client-2" } ]

/-- A network failure. -/
def exampleFailure : Error := Error.transport "connection reset"

/-- A connection with the ID `con_1`. -/
def exampleConnection : Connection := { ID := some "con_1" }

/-- A connection named `my-conn` that has no ID. -/
def exampleConnectionNoID : Connection := { Name := some "my-conn" }

/-! ## Records and the round trip -/

/-- Whether the keys of a listing are in ascending order, each one before all that
follow: the listing of a Go map. -/
def keysAscending : List (String × Json) → Bool
  | [] => true
  | (k, _) :: rest => rest.all (fun kv => decide (k < kv.1)) && keysAscending rest

mutual
/-- Whether a value is one that `encoding/json` reads into an `interface{}` and writes back
digit for digit: its numbers are `float64`s holding an integer of at most 2^53 in magnitude,
and its maps are listed in the order of their keys. -/
def Json.isValue : Json → Bool
  | Json.null => true
  | Json.bool _ => true
  | Json.num n => decide (n.natAbs ≤ 2 ^ 53)
  | Json.str _ => true
  | Json.arr xs => allValues xs
  | Json.obj ms => keysAscending ms && memberValues ms
/-- Whether the elements of a slice are such values. -/
def allValues : List Json → Bool
  | [] => true
  | x :: xs => x.isValue && allValues xs
/-- Whether the values of a map are such values. -/
def memberValues : List (String × Json) → Bool
  | [] => true
  | (_, v) :: ms => v.isValue && memberValues ms
end

/-- A `[]interface{}` field is nil or holds such values. -/
def sliceValue : Option (List Json) → Bool
  | none => true
  | some xs => allValues xs

/-- A `map[string]interface{}` field is nil or is a map of such values. -/
def mapValue : Option (List (String × Json)) → Bool
  | none => true
  | some ms => keysAscending ms && memberValues ms

/-- A `*interface{}` field is nil or points to such a value. -/
def anyValue : Option Json → Bool
  | none => true
  | some j => j.isValue

/-- The scope of a grant holds values as `encoding/json` reads them. -/
def ClientGrant.wellFormed (g : ClientGrant) : Prop :=
  sliceValue g.Scope = true

/-- The integers of a `ConnectionOptionsTotp` are values of the Go type `int`. -/
def ConnectionOptionsTotp.wellFormed (t : ConnectionOptionsTotp) : Prop :=
  (∀ n, t.TimeStep = some n → fitsInt n = true) ∧
  (∀ n, t.Length = some n → fitsInt n = true)

/-- The maps, the slice and the `interface{}` of the options hold values as `encoding/json`
reads them, and the integers of `Totp` are values of the Go type `int`. -/
def ConnectionOptions.wellFormed (o : ConnectionOptions) : Prop :=
  mapValue o.Validation = true ∧ mapValue o.PasswordHistory = true ∧
  mapValue o.PasswordNoPersonalInfo = true ∧ mapValue o.PasswordDictionary = true ∧
  mapValue o.PasswordComplexityOptions = true ∧ anyValue o.UpstreamParams = true ∧
  sliceValue o.DomainAliases = true ∧ mapValue o.CustomScripts = true ∧
  mapValue o.Configuration = true ∧ (∀ t, o.Totp = some t → t.wellFormed)

/-- The slices and the `interface{}` of the connection hold values as `encoding/json` reads
them, and its options, if any, are well formed. -/
def Connection.wellFormed (c : Connection) : Prop :=
  sliceValue c.EnabledClients = true ∧ sliceValue c.Realms = true ∧
  anyValue c.Metadata = true ∧ (∀ o, c.Options = some o → o.wellFormed)

/-- A connection with options, clients and metadata, none of them empty. -/
def exampleFullConnection : Connection :=
  { ID := some "con_1", Name := some "my-conn", Strategy := some "auth0",
    Options := some { Validation := some [("password", Json.obj [("min", Json.num 8)]),
                                          ("username", Json.obj [("min", Json.num 1)])],
                      BruteForceProtection := some true,
                      Totp := some { TimeStep := some 30, Length := some 6 } },
    EnabledClients := some [Json.str "client-1"],
    Metadata := some (Json.obj []) }

/-- A grant with an ID and no scope. -/
def exampleGrantNoScope : ClientGrant := { ID := some "abc123" }

/-- The loop of `Read` returns the first grant whose ID, as `auth0.StringValue` reads it, is
`id`, when the entries before it are grants; the entries after it are not looked at. -/
theorem scan_earliest_match (id : String) (pre : List ClientGrant) (g : ClientGrant)
    (post : List (Option ClientGrant))
    (hpre : ∀ x ∈ pre, auth0.StringValue x.ID ≠ id) (hg : auth0.StringValue g.ID = id) :
    ClientGrantManager.scan id (pre.map some ++ some g :: post)
      = Outcome.returned (some g, none) := by
  induction pre with
  | nil => simp [ClientGrantManager.scan, hg]
  | cons a t ih =>
    have ha : auth0.StringValue a.ID ≠ id := hpre a (List.mem_cons_self a t)
    have ht : ∀ x ∈ t, auth0.StringValue x.ID ≠ id :=
      fun x hx => hpre x (List.mem_cons_of_mem a hx)
    simpa [ClientGrantManager.scan, ha] using ih ht

/-- The loop of `Read` over a listing of grants none of which has the ID `id` runs to the
end and returns the error of lines 52-56. -/
theorem scan_no_match (id : String) (gs : List ClientGrant)
    (h : ∀ g ∈ gs, auth0.StringValue g.ID ≠ id) :
    ClientGrantManager.scan id (gs.map some) =
      Outcome.returned (none, some clientGrantNotFound) := by
  induction gs with
  | nil => rfl
  | cons a t ih =>
    have ha : auth0.StringValue a.ID ≠ id := h a (List.mem_cons_self a t)
    have ht : ∀ g ∈ t, auth0.StringValue g.ID ≠ id :=
      fun g hg => h g (List.mem_cons_of_mem a hg)
    simpa [ClientGrantManager.scan, ha] using ih ht

/-- C1, as amended: for every id and every listing that the transport returns without
error, if the listing has a grant whose ID `auth0.StringValue` reads as `id` (an absent ID
being read as the empty string) and no entry before the earliest such grant is nil, then
`Read(id)` returns a nil error together with that earliest grant; the entries after it may
be anything, nil included. -/
theorem clientGrantRead_first_match (cg : ClientGrantManager) (id : String)
    (pre : List ClientGrant) (g : ClientGrant) (post : List (Option ClientGrant))
    (hlist : cg.m.doGetClientGrants (cg.m.uri ["client-grants"])
      = (pre.map some ++ some g :: post, none))
    (hpre : ∀ x ∈ pre, auth0.StringValue x.ID ≠ id)
    (hg : auth0.StringValue g.ID = id) :
    (cg.Read id).value = Outcome.returned (some g, none) := by
  simp only [ClientGrantManager.Read, Management.getClientGrants, hlist]
  exact scan_earliest_match id pre g post hpre hg

/-- C1, witness: the listing is a grant with ID `xyz`, two grants with ID `abc123` and a
nil entry; `Read("abc123")` returns the first of the two. -/
theorem clientGrantRead_first_match_witness :
    (∀ x ∈ [({ ID := some "xyz", ClientID := some "client-0" } : ClientGrant)],
      auth0.StringValue x.ID ≠ "abc123") ∧
    ((NewClientGrantManager (exampleManagement exampleNilAfterMatch [] none)).Read
        "abc123").value
      = Outcome.returned (some { ID := some "abc123", ClientID := some "client-1" }, none) :=
  have h : ∀ x ∈ [({ ID := some "xyz", ClientID := some "client-0" } : ClientGrant)],
      auth0.StringValue x.ID ≠ "abc123" := by
    simp [auth0.StringValue]
  ⟨h, clientGrantRead_first_match
    (NewClientGrantManager (exampleManagement exampleNilAfterMatch [] none)) "abc123"
    [{ ID := some "xyz", ClientID := some "client-0" }]
    { ID := some "abc123", ClientID := some "client-1" }
    [some { ID := some "abc123", ClientID := some "client-2" }, none] rfl h rfl⟩

/-- C1, as stated, fails: the listing `exampleBlankGrants` has a grant whose ID is present
and equal to the empty string, yet `Read("")` returns the grant before it, which has no ID;
it returns no grant whose ID is present and equal to the id asked for. -/
theorem clientGrantRead_present_match_counterexample :
    (exampleManagement (exampleBlankGrants.map some) [] none).doGetClientGrants
        ((exampleManagement (exampleBlankGrants.map some) [] none).uri ["client-grants"])
      = (exampleBlankGrants.map some, none) ∧
    (∃ g ∈ exampleBlankGrants, g.ID = some "") ∧
    ((NewClientGrantManager (exampleManagement (exampleBlankGrants.map some) [] none)).Read
        "").value = Outcome.returned (some { ClientID := some "client-1" }, none) ∧
    ¬ ∃ g : ClientGrant, g.ID = some "" ∧
      ((NewClientGrantManager (exampleManagement (exampleBlankGrants.map some) [] none)).Read
        "").value = Outcome.returned (some g, none) := by
  refine ⟨rfl,
    ⟨{ ID := some "", ClientID := some "client-2" }, by simp [exampleBlankGrants], rfl⟩,
    rfl, ?_⟩
  rintro ⟨g, hg, hread⟩
  have hval : ((NewClientGrantManager
      (exampleManagement (exampleBlankGrants.map some) [] none)).Read "").value
      = Outcome.returned (some { ClientID := some "client-1" }, none) := rfl
  rw [hval] at hread
  injection hread with hpair
  injection hpair with hsome _
  injection hsome with hgrant
  rw [← hgrant] at hg
  simp at hg

/-- C2, as stated, fails: the listing with one entry, a nil pointer, is returned without
error and has no grant whose ID equals `missing`, and `Read("missing")` dereferences the
entry at line 47 and panics; it does not return the error of lines 52-56. -/
theorem clientGrantRead_nil_entry_counterexample :
    (exampleManagement [none] [] none).doGetClientGrants
        ((exampleManagement [none] [] none).uri ["client-grants"]) = ([none], none) ∧
    (∀ g : ClientGrant, some g ∈ [(none : Option ClientGrant)] →
      auth0.StringValue g.ID ≠ "missing") ∧
    ((NewClientGrantManager (exampleManagement [none] [] none)).Read "missing").value
      = Outcome.panicked ∧
    ((NewClientGrantManager (exampleManagement [none] [] none)).Read "missing").value
      ≠ Outcome.returned (none, some (Error.management
          { StatusCode := 404, Err := "Not Found", Message := "Client grant not found" })) := by
  have hval : ((NewClientGrantManager (exampleManagement [none] [] none)).Read
      "missing").value = Outcome.panicked := rfl
  refine ⟨rfl, by simp, hval, ?_⟩
  rw [hval]
  exact fun h => Outcome.noConfusion h

/-- C2, as amended: for every id and every listing that the transport returns without
error, none of whose entries is nil and in which no grant has an ID that
`auth0.StringValue` reads as `id`, `Read(id)` returns a nil grant and the `managementError`
with status code 404, label `Not Found` and message `Client grant not found`. The empty
listing is such a listing. -/
theorem clientGrantRead_not_found (cg : ClientGrantManager) (id : String)
    (gs : List ClientGrant)
    (hlist : cg.m.doGetClientGrants (cg.m.uri ["client-grants"]) = (gs.map some, none))
    (hno : ∀ g ∈ gs, auth0.StringValue g.ID ≠ id) :
    (cg.Read id).value = Outcome.returned (none, some (Error.management
      { StatusCode := 404, Err := "Not Found", Message := "Client grant not found" })) := by
  simp only [ClientGrantManager.Read, Management.getClientGrants, hlist]
  exact scan_no_match id gs hno

/-- C2, witness: `Read("missing")` over the listing `exampleGrants`. -/
theorem clientGrantRead_not_found_witness :
    (∀ g ∈ exampleGrants, auth0.StringValue g.ID ≠ "missing") ∧
    ((NewClientGrantManager (exampleManagement (exampleGrants.map some) [] none)).Read
        "missing").value = Outcome.returned (none, some (Error.management
      { StatusCode := 404, Err := "Not Found", Message := "Client grant not found" })) :=
  have h : ∀ g ∈ exampleGrants, auth0.StringValue g.ID ≠ "missing" := by
    simp [exampleGrants, auth0.StringValue]
  ⟨h, clientGrantRead_not_found
    (NewClientGrantManager (exampleManagement (exampleGrants.map some) [] none))
    "missing" exampleGrants rfl h⟩

/-- C3: for every id, every error `e` that the GET of the client-grants collection returns
and every listing decoded by that call (empty or not, with a match or not, with nil entries
or not), `Read(id)` returns a nil grant and the error `e`. -/
theorem clientGrantRead_list_error (cg : ClientGrantManager) (id : String)
    (listing : List (Option ClientGrant)) (e : Error)
    (hlist : cg.m.doGetClientGrants (cg.m.uri ["client-grants"]) = (listing, some e)) :
    (cg.Read id).value = Outcome.returned (none, some e) := by
  simp only [ClientGrantManager.Read, Management.getClientGrants, hlist]

/-- C3, witness: the listing `exampleGrants`, which has a match for `abc123`, returned
together with a network failure. -/
theorem clientGrantRead_list_error_witness :
    ((NewClientGrantManager
        (exampleManagement (exampleGrants.map some) [] (some exampleFailure))).Read
      "abc123").value = Outcome.returned (none, some exampleFailure) :=
  clientGrantRead_list_error
    (NewClientGrantManager (exampleManagement (exampleGrants.map some) [] (some exampleFailure)))
    "abc123" (exampleGrants.map some) exampleFailure rfl

/-! ## `ConnectionManager.GetConnectionID` -/

/-- C4: for every connection name, if the filtered list call returns no error and exactly
one connection, `GetConnectionID(name)` returns the ID field of that connection and a nil
error. -/
theorem getConnectionID_unique (cm : ConnectionManager) (name : String) (c : Connection)
    (hlist : (cm.m.Connection.List [Parameter "name" name, Parameter "fields" "id"]).value
      = ([some c], none)) :
    (cm.GetConnectionID name).value = Outcome.returned (c.ID, none) := by
  simp [ConnectionManager.GetConnectionID, hlist]

/-- C4, witness: exactly one connection is listed for `my-conn`, with ID `con_1`. -/
theorem getConnectionID_unique_witness :
    ((NewConnectionManager (exampleManagement [] [some exampleConnection] none)).GetConnectionID
      "my-conn").value = Outcome.returned (some "con_1", none) :=
  getConnectionID_unique (NewConnectionManager (exampleManagement [] [some exampleConnection] none))
    "my-conn" exampleConnection rfl

/-- C5: for every connection name and every outcome of the filtered list call whose number
of connections is not one, `GetConnectionID(name)` returns a nil ID and an error; when the
list call returned no error, that error is the value of `errors.New` at the connection
name followed by ` connection does not exist.`. -/
theorem getConnectionID_not_unique (cm : ConnectionManager) (name : String)
    (conns : List (Option Connection)) (err : Option Error)
    (hlist : (cm.m.Connection.List [Parameter "name" name, Parameter "fields" "id"]).value
      = (conns, err))
    (hcount : conns.length ≠ 1) :
    ∃ e, (cm.GetConnectionID name).value = Outcome.returned (none, some e) ∧
      (err = none → e = Error.errorString (name ++ " connection does not exist.")) := by
  cases err with
  | none =>
    exact ⟨Error.errorString (name ++ " connection does not exist."),
      by simp [ConnectionManager.GetConnectionID, hlist, hcount, errors.New], fun _ => rfl⟩
  | some e =>
    exact ⟨e, by simp [ConnectionManager.GetConnectionID, hlist, hcount], by simp⟩

/-- C5, witness: two connections are listed for `my-conn`. -/
theorem getConnectionID_not_unique_witness :
    [some exampleConnection, some exampleConnectionNoID].length ≠ 1 ∧
    ∃ e, ((NewConnectionManager (exampleManagement []
        [some exampleConnection, some exampleConnectionNoID] none)).GetConnectionID
        "my-conn").value = Outcome.returned (none, some e) ∧
      ((none : Option Error) = none →
        e = Error.errorString ("my-conn" ++ " connection does not exist.")) :=
  ⟨by decide, getConnectionID_not_unique
    (NewConnectionManager (exampleManagement []
      [some exampleConnection, some exampleConnectionNoID] none))
    "my-conn" [some exampleConnection, some exampleConnectionNoID] none rfl (by decide)⟩

/-- C6, the code at the failing input: the filtered list call returns the network failure
`exampleFailure` together with one connection, and `GetConnectionID` returns the ID of that
connection with a nil error; the failure is dropped. -/
theorem getConnectionID_drops_list_error :
    ((exampleManagement [] [some exampleConnection] (some exampleFailure)).Connection.List
        [Parameter "name" "my-conn", Parameter "fields" "id"]).value
      = ([some exampleConnection], some exampleFailure) ∧
    ((NewConnectionManager
        (exampleManagement [] [some exampleConnection] (some exampleFailure))).GetConnectionID
      "my-conn").value = Outcome.returned (some "con_1", none) :=
  ⟨rfl, rfl⟩

/-! ## Result or error -/

/-- The loop of `Read`, over any listing, never returns a nil grant with a nil error. -/
theorem scan_result_or_error (id : String) (listing : List (Option ClientGrant))
    (g : Option ClientGrant)
    (h : ClientGrantManager.scan id listing = Outcome.returned (g, none)) : g ≠ none := by
  induction listing with
  | nil => simp [ClientGrantManager.scan] at h
  | cons a t ih =>
    cases a with
    | none => simp [ClientGrantManager.scan] at h
    | some a =>
      by_cases ha : auth0.StringValue a.ID = id
      · simp [ClientGrantManager.scan, ha] at h
        simp [← h]
      · simp [ClientGrantManager.scan, ha] at h
        exact ih h

/-- C9, as stated, fails: the filtered list call returns no error and one connection, which
has no ID, and `GetConnectionID` returns a nil ID together with a nil error. -/
theorem getConnectionID_nil_nil_counterexample :
    ((exampleManagement [] [some exampleConnectionNoID] none).Connection.List
        [Parameter "name" "my-conn", Parameter "fields" "id"]).value
      = ([some exampleConnectionNoID], none) ∧
    ((NewConnectionManager
        (exampleManagement [] [some exampleConnectionNoID] none)).GetConnectionID
      "my-conn").value = Outcome.returned (none, none) :=
  ⟨rfl, rfl⟩

/-- C9, as amended: for every input and every transport outcome, `ClientGrantManager.Read`
never returns a nil grant with a nil error, and the connection `ConnectionManager.Read`
returns is never nil; when the filtered list call returned no error and `GetConnectionID`
returns a nil error, what it returns is the ID field of the one connection listed, which is
not nil when that connection has an ID. -/
theorem lookups_result_or_error (cg : ClientGrantManager) (cm : ConnectionManager)
    (id name : String) (opts : List reqOption) :
    (∀ g, (cg.Read id).value = Outcome.returned (g, none) → g ≠ none) ∧
    (∃ c, (cm.Read id opts).value.1 = some c) ∧
    (∀ r,
      (cm.m.Connection.List [Parameter "name" name, Parameter "fields" "id"]).value.2 = none →
      (cm.GetConnectionID name).value = Outcome.returned (r, none) →
      ∃ c, (cm.m.Connection.List [Parameter "name" name, Parameter "fields" "id"]).value.1
          = [some c] ∧ r = c.ID ∧ (c.ID ≠ none → r ≠ none)) := by
  refine ⟨?_, ⟨_, rfl⟩, ?_⟩
  · intro g h
    simp only [ClientGrantManager.Read, Management.getClientGrants] at h
    cases herr : (cg.m.doGetClientGrants (cg.m.uri ["client-grants"])).2 with
    | some e => simp [herr] at h
    | none =>
      simp only [herr] at h
      exact scan_result_or_error id _ g h
  · intro r herr h
    simp only [ConnectionManager.GetConnectionID] at h
    generalize (cm.m.Connection.List [Parameter "name" name, Parameter "fields" "id"]) = res
      at herr h ⊢
    obtain ⟨⟨conns, err⟩, calls⟩ := res
    simp only at herr h ⊢
    subst herr
    match conns, h with
    | [], h => simp at h
    | [none], h => simp at h
    | [some c], h =>
      simp only [List.length_singleton, ↓reduceIte, List.head?_cons, Outcome.returned.injEq,
        Prod.mk.injEq, and_true] at h
      exact ⟨c, rfl, h.symm, fun hc => h ▸ hc⟩
    | _ :: _ :: _, h => simp at h

/-- C9, witness: a grant found by `Read("abc123")`, a connection read, and the ID `con_1`
resolved for `my-conn`. -/
theorem lookups_result_or_error_witness :
    (some ({ ID := some "abc123", ClientID := some "client-1" } : ClientGrant) ≠ none) ∧
    (∃ c, ((NewConnectionManager (exampleManagement [] [some exampleConnection] none)).Read
      "con_1" []).value.1 = some c) ∧
    (∃ c, ((exampleManagement [] [some exampleConnection] none).Connection.List
        [Parameter "name" "my-conn", Parameter "fields" "id"]).value.1 = [some c] ∧
      some "con_1" = c.ID ∧ (c.ID ≠ none → some "con_1" ≠ none)) :=
  have h := lookups_result_or_error
    (NewClientGrantManager (exampleManagement (exampleGrants.map some) [] none))
    (NewConnectionManager (exampleManagement [] [some exampleConnection] none))
    "abc123" "my-conn" []
  ⟨h.1 _ rfl, ⟨_, rfl⟩, h.2.2 _ rfl rfl⟩

/-! ## Verbs and URIs -/

/-- C10: over any transport, each of `Create`, `Update`, `Delete` and `List` of the two
managers makes exactly one call and returns what the transport answers to it: `Create` is a
POST to `uri(resource)` with the record as body, `Update(id, r)` a PATCH to
`uri(resource, id)` with `r` as body, `Delete(id)` a DELETE to `uri(resource, id)`, and
`List(opts)` a GET to `uri(resource)` followed by `q(opts)`; the resource is
`client-grants` for `ClientGrantManager` and `connections` for `ConnectionManager`. -/
theorem verb_and_uri (cg : ClientGrantManager) (cm : ConnectionManager) (id : String)
    (g : Option ClientGrant) (c : Option Connection) (opts : List reqOption) :
    (cg.Create g).calls = [⟨Verb.POST, cg.m.uri ["client-grants"], some (Payload.grant g)⟩] ∧
    (cg.Create g).value = cg.m.doPost (cg.m.uri ["client-grants"]) (Payload.grant g) ∧
    (cg.Update id g).calls
      = [⟨Verb.PATCH, cg.m.uri ["client-grants", id], some (Payload.grant g)⟩] ∧
    (cg.Update id g).value = cg.m.doPatch (cg.m.uri ["client-grants", id]) (Payload.grant g) ∧
    (cg.Delete id).calls = [⟨Verb.DELETE, cg.m.uri ["client-grants", id], none⟩] ∧
    (cg.Delete id).value = cg.m.doDelete (cg.m.uri ["client-grants", id]) ∧
    (cg.List opts).calls = [⟨Verb.GET, cg.m.uri ["client-grants"] ++ cg.m.q opts, none⟩] ∧
    (cg.List opts).value
      = cg.m.doGetClientGrants (cg.m.uri ["client-grants"] ++ cg.m.q opts) ∧
    (cm.Create c).calls
      = [⟨Verb.POST, cm.m.uri ["connections"], some (Payload.connection c)⟩] ∧
    (cm.Create c).value = cm.m.doPost (cm.m.uri ["connections"]) (Payload.connection c) ∧
    (cm.Update id c).calls
      = [⟨Verb.PATCH, cm.m.uri ["connections", id], some (Payload.connection c)⟩] ∧
    (cm.Update id c).value
      = cm.m.doPatch (cm.m.uri ["connections", id]) (Payload.connection c) ∧
    (cm.Delete id).calls = [⟨Verb.DELETE, cm.m.uri ["connections", id], none⟩] ∧
    (cm.Delete id).value = cm.m.doDelete (cm.m.uri ["connections", id]) ∧
    (cm.List opts).calls = [⟨Verb.GET, cm.m.uri ["connections"] ++ cm.m.q opts, none⟩] ∧
    (cm.List opts).value = cm.m.doGetConnections (cm.m.uri ["connections"] ++ cm.m.q opts) :=
  ⟨rfl, rfl, rfl, rfl, rfl, rfl, rfl, rfl, rfl, rfl, rfl, rfl, rfl, rfl, rfl, rfl⟩

/-! ## Serialization -/

/-- The members written for a list of fields are the documents of its fields. -/
theorem mem_encodeFields (fs : List Field) (k : String) (j : Json) :
    (k, j) ∈ encodeFields fs ↔ ∃ f ∈ fs, f.name = k ∧ f.doc = some j := by
  simp only [encodeFields, List.mem_filterMap, Field.member, Option.map_eq_some',
    Prod.mk.injEq]
  constructor
  · rintro ⟨f, hf, j0, hdoc, hname, rfl⟩
    exact ⟨f, hf, hname, hdoc⟩
  · rintro ⟨f, hf, hname, hdoc⟩
    exact ⟨f, hf, j, hdoc, hname, rfl⟩

/-- An absent field tagged `omitempty` is empty. -/
theorem isEmptyValue_of_isNil (v : FieldValue) (h : v.isNil = true) : isEmptyValue v = true := by
  cases v with
  | pointer p => exact h
  | slice s =>
    cases s with
    | none => rfl
    | some xs => simp [FieldValue.isNil] at h
  | map m =>
    cases m with
    | none => rfl
    | some xs => simp [FieldValue.isNil] at h

/-- A field tagged `omitempty` for which a document is written is present. -/
theorem isNil_of_doc (f : Field) (j : Json) (homit : f.omitEmpty = true)
    (hdoc : f.doc = some j) : f.value.isNil = false := by
  cases hnil : f.value.isNil with
  | false => rfl
  | true =>
    have hempty := isEmptyValue_of_isNil f.value hnil
    simp [Field.doc, homit, hempty] at hdoc

/-- In the members written for fields that are all tagged `omitempty`, every key is the
key of a field that is present. -/
theorem present_of_mem_encodeFields (fs : List Field) (hall : ∀ f ∈ fs, f.omitEmpty = true)
    (k : String) (j : Json) (h : (k, j) ∈ encodeFields fs) :
    ∃ f ∈ fs, f.name = k ∧ f.value.isNil = false := by
  obtain ⟨f, hf, hname, hdoc⟩ := (mem_encodeFields fs k j).mp h
  exact ⟨f, hf, hname, isNil_of_doc f j (hall f hf) hdoc⟩

/-- Among fields with distinct keys, nothing is written under the key of an absent field
tagged `omitempty`. -/
theorem not_mem_encodeFields_of_isNil (fs : List Field) (hnodup : (fs.map Field.name).Nodup)
    (f : Field) (hf : f ∈ fs) (homit : f.omitEmpty = true) (hnil : f.value.isNil = true)
    (j : Json) : (f.name, j) ∉ encodeFields fs := by
  intro h
  obtain ⟨f1, hf1, hname, hdoc⟩ := (mem_encodeFields fs f.name j).mp h
  have heq : f1 = f := List.inj_on_of_nodup_map hnodup hf1 hf hname
  subst heq
  have := isNil_of_doc f1 j homit hdoc
  rw [hnil] at this
  exact Bool.noConfusion this

/-- Every field of `ConnectionOptions` is tagged `omitempty`. -/
theorem connectionOptions_fields_omitEmpty (o : ConnectionOptions) :
    ∀ f ∈ o.fields, f.omitEmpty = true := by
  simp [ConnectionOptions.fields, ConnectionOptions.fieldsPassword, ConnectionOptions.fieldsFlags,
    ConnectionOptions.fieldsProvider, ConnectionOptions.fieldsScripts]

/-- The keys of the fields of `ConnectionOptions` are distinct. -/
theorem connectionOptions_fields_nodup (o : ConnectionOptions) :
    (o.fields.map Field.name).Nodup := by
  simp [ConnectionOptions.fields, ConnectionOptions.fieldsPassword, ConnectionOptions.fieldsFlags,
    ConnectionOptions.fieldsProvider, ConnectionOptions.fieldsScripts]

/-- Every field of `Connection` is tagged `omitempty`. -/
theorem connection_fields_omitEmpty (c : Connection) : ∀ f ∈ c.fields, f.omitEmpty = true := by
  simp [Connection.fields]

/-- The keys of the fields of `Connection` are distinct. -/
theorem connection_fields_nodup (c : Connection) : (c.fields.map Field.name).Nodup := by
  simp [Connection.fields]

/-- Every field of `ConnectionOptionsTotp` is tagged `omitempty`. -/
theorem totp_fields_omitEmpty (t : ConnectionOptionsTotp) :
    ∀ f ∈ t.fields, f.omitEmpty = true := by
  simp [ConnectionOptionsTotp.fields]

/-- The keys of the fields of `ConnectionOptionsTotp` are distinct. -/
theorem totp_fields_nodup (t : ConnectionOptionsTotp) :
    (t.fields.map Field.name).Nodup := by
  simp [ConnectionOptionsTotp.fields]

/-- Every field of `ClientGrant` other than `scope` is tagged `omitempty`. -/
theorem clientGrant_fields_omitEmpty (g : ClientGrant) :
    ∀ f ∈ g.fields, f.name ≠ "scope" → f.omitEmpty = true := by
  simp [ClientGrant.fields]

/-- The keys of the fields of `ClientGrant` are distinct. -/
theorem clientGrant_fields_nodup (g : ClientGrant) : (g.fields.map Field.name).Nodup := by
  simp [ClientGrant.fields]

/-- C7, as stated, fails: the grant `exampleGrantNoScope` has no scope, and the object
written for it has the key `scope`, with the value `null`. -/
theorem scope_null_counterexample :
    exampleGrantNoScope.Scope = none ∧
    (Field.mk "scope" false (FieldValue.slice exampleGrantNoScope.Scope))
      ∈ exampleGrantNoScope.fields ∧
    (FieldValue.slice exampleGrantNoScope.Scope).isNil = true ∧
    exampleGrantNoScope.marshal = Json.obj [("id", Json.str "abc123"), ("scope", Json.null)] ∧
    ("scope", Json.null) ∈ exampleGrantNoScope.marshal.members :=
  ⟨rfl, by simp [ClientGrant.fields], rfl, rfl,
    by simp [exampleGrantNoScope, ClientGrant.marshal, ClientGrant.fields, encodeFields,
      Field.member, Field.doc, isEmptyValue, FieldValue.encode, Json.members]⟩

/-- C7, as amended: for every `Connection`, `ConnectionOptions` and `ConnectionOptionsTotp`,
and for every field of a `ClientGrant` other than `Scope`, the object written has a key only
for fields that are present, and nothing is written under the key of an absent field;
`ClientGrant.Scope`, whose tag has no `omitempty`, is always written: as `null` when it is
absent, as its array (empty or not) when it is present, and with no other value. -/
theorem absent_fields_omitted (c : Connection) (o : ConnectionOptions)
    (t : ConnectionOptionsTotp) (g : ClientGrant) :
    (∀ k j, (k, j) ∈ c.marshal.members →
      ∃ f ∈ c.fields, f.name = k ∧ f.value.isNil = false) ∧
    (∀ f ∈ c.fields, f.value.isNil = true → ∀ j, (f.name, j) ∉ c.marshal.members) ∧
    (∀ k j, (k, j) ∈ o.marshal.members →
      ∃ f ∈ o.fields, f.name = k ∧ f.value.isNil = false) ∧
    (∀ f ∈ o.fields, f.value.isNil = true → ∀ j, (f.name, j) ∉ o.marshal.members) ∧
    (∀ k j, (k, j) ∈ t.marshal.members →
      ∃ f ∈ t.fields, f.name = k ∧ f.value.isNil = false) ∧
    (∀ f ∈ t.fields, f.value.isNil = true → ∀ j, (f.name, j) ∉ t.marshal.members) ∧
    (∀ k j, (k, j) ∈ g.marshal.members → k ≠ "scope" →
      ∃ f ∈ g.fields, f.name = k ∧ f.value.isNil = false) ∧
    (∀ f ∈ g.fields, f.name ≠ "scope" → f.value.isNil = true →
      ∀ j, (f.name, j) ∉ g.marshal.members) ∧
    (g.Scope = none → ("scope", Json.null) ∈ g.marshal.members) ∧
    (∀ xs, g.Scope = some xs → ("scope", Json.arr xs) ∈ g.marshal.members) ∧
    (∀ j, ("scope", j) ∈ g.marshal.members →
      j = FieldValue.encode (FieldValue.slice g.Scope)) := by
  refine ⟨?_, ?_, ?_, ?_, ?_, ?_, ?_, ?_, ?_, ?_, ?_⟩
  · exact present_of_mem_encodeFields c.fields (connection_fields_omitEmpty c)
  · exact fun f hf hnil j =>
      not_mem_encodeFields_of_isNil c.fields (connection_fields_nodup c) f hf
        (connection_fields_omitEmpty c f hf) hnil j
  · exact present_of_mem_encodeFields o.fields (connectionOptions_fields_omitEmpty o)
  · exact fun f hf hnil j =>
      not_mem_encodeFields_of_isNil o.fields (connectionOptions_fields_nodup o) f hf
        (connectionOptions_fields_omitEmpty o f hf) hnil j
  · exact present_of_mem_encodeFields t.fields (totp_fields_omitEmpty t)
  · exact fun f hf hnil j =>
      not_mem_encodeFields_of_isNil t.fields (totp_fields_nodup t) f hf
        (totp_fields_omitEmpty t f hf) hnil j
  · intro k j h hk
    obtain ⟨f, hf, hname, hdoc⟩ := (mem_encodeFields g.fields k j).mp h
    exact ⟨f, hf, hname, isNil_of_doc f j (clientGrant_fields_omitEmpty g f hf (hname ▸ hk)) hdoc⟩
  · exact fun f hf hname hnil j =>
      not_mem_encodeFields_of_isNil g.fields (clientGrant_fields_nodup g) f hf
        (clientGrant_fields_omitEmpty g f hf hname) hnil j
  · intro hscope
    refine (mem_encodeFields g.fields "scope" Json.null).mpr
      ⟨Field.mk "scope" false (FieldValue.slice g.Scope), by simp [ClientGrant.fields], rfl, ?_⟩
    simp [Field.doc, hscope, FieldValue.encode]
  · intro xs hscope
    refine (mem_encodeFields g.fields "scope" (Json.arr xs)).mpr
      ⟨Field.mk "scope" false (FieldValue.slice g.Scope), by simp [ClientGrant.fields], rfl, ?_⟩
    simp [Field.doc, hscope, FieldValue.encode]
  · intro j h
    obtain ⟨f, hf, hname, hdoc⟩ := (mem_encodeFields g.fields "scope" j).mp h
    have hfield : f = Field.mk "scope" false (FieldValue.slice g.Scope) :=
      List.inj_on_of_nodup_map (clientGrant_fields_nodup g) hf
        (by simp [ClientGrant.fields]) hname
    subst hfield
    simpa [Field.doc] using hdoc.symm

/-- C7, witness: the connection `exampleFullConnection` has no realms, and nothing is
written under the key `realms`; the grant `exampleGrantNoScope` has no scope, and `null` is
written under the key `scope`. -/
theorem absent_fields_omitted_witness :
    (∀ j, ("realms", j) ∉ exampleFullConnection.marshal.members) ∧
    ("scope", Json.null) ∈ exampleGrantNoScope.marshal.members :=
  have h := absent_fields_omitted exampleFullConnection {} {} exampleGrantNoScope
  ⟨h.2.1 (Field.mk "realms" true (FieldValue.slice exampleFullConnection.Realms))
      (by simp [Connection.fields]) rfl,
    h.2.2.2.2.2.2.2.2.1 rfl⟩

/-! ## Round trip -/

/-- An integer of at most 2^53 in magnitude is a `float64`. -/
theorem float64_of_le (n : Int) (h : n.natAbs ≤ 2 ^ 53) : float64 n = some n := by
  unfold float64
  rw [if_pos h]

/-- Storing under a key that comes after every key of the map adds it at the end. -/
theorem mapStore_last (k : String) (v : Json) (m : List (String × Json))
    (h : ∀ a ∈ m, a.1 < k) : mapStore k v m = m ++ [(k, v)] := by
  induction m with
  | nil => rfl
  | cons a t ih =>
    obtain ⟨k1, v1⟩ := a
    have h1 : k1 < k := h (k1, v1) (List.mem_cons_self _ _)
    have h2 : ¬ k < k1 := lt_asymm h1
    have h3 : k ≠ k1 := fun e => lt_irrefl k1 (e ▸ h1)
    have ht : ∀ a ∈ t, a.1 < k := fun a ha => h a (List.mem_cons_of_mem _ ha)
    simp [mapStore, h2, h3, ih ht]

mutual
/-- A value as `encoding/json` reads them is read back as itself. -/
theorem asInterface_isValue : ∀ j : Json, j.isValue = true → asInterface j = some j
  | Json.null, _ => rfl
  | Json.bool _, _ => rfl
  | Json.num n, h => by
    have hn : n.natAbs ≤ 2 ^ 53 := by simpa [Json.isValue] using h
    simp [asInterface, float64_of_le n hn]
  | Json.str _, _ => rfl
  | Json.arr xs, h => by
    have hxs : allValues xs = true := by simpa [Json.isValue] using h
    simp [asInterface, asInterfaces_allValues xs hxs]
  | Json.obj ms, h => by
    have hms : keysAscending ms = true ∧ memberValues ms = true := by
      simpa [Json.isValue] using h
    simp [asInterface, asInterfaceMap_memberValues ms [] hms.1 hms.2 (by simp)]
/-- A slice of such values is read back as itself. -/
theorem asInterfaces_allValues : ∀ xs : List Json, allValues xs = true →
    asInterfaces xs = some xs
  | [], _ => rfl
  | x :: xs, h => by
    have hx : x.isValue = true ∧ allValues xs = true := by simpa [allValues] using h
    simp [asInterfaces, asInterface_isValue x hx.1, asInterfaces_allValues xs hx.2]
/-- Storing the listing of a map of such values in a map whose keys all come before adds
the listing at the end. -/
theorem asInterfaceMap_memberValues : ∀ (ms m : List (String × Json)),
    keysAscending ms = true → memberValues ms = true →
    (∀ a ∈ m, ∀ b ∈ ms, a.1 < b.1) → asInterfaceMap ms m = some (m ++ ms)
  | [], m, _, _, _ => by simp [asInterfaceMap]
  | (k, v) :: ms, m, hk, hv, hm => by
    have hk2 : (∀ b ∈ ms, k < b.1) ∧ keysAscending ms = true := by
      simpa [keysAscending] using hk
    have hv2 : v.isValue = true ∧ memberValues ms = true := by simpa [memberValues] using hv
    have hstore : mapStore k v m = m ++ [(k, v)] :=
      mapStore_last k v m (fun a ha => hm a ha (k, v) (List.mem_cons_self _ _))
    have hnext : ∀ a ∈ m ++ [(k, v)], ∀ b ∈ ms, a.1 < b.1 := by
      intro a ha b hb
      rcases List.mem_append.mp ha with ha | ha
      · exact hm a ha b (List.mem_cons_of_mem _ hb)
      · have : a = (k, v) := by simpa using ha
        subst this
        exact hk2.1 b hb
    simp [asInterfaceMap, asInterface_isValue v hv2.1, hstore,
      asInterfaceMap_memberValues ms (m ++ [(k, v)]) hk2.2 hv2.2 hnext]
end

end management
